import Mathlib

/-!
Verification of snpEffWrapper (src/snpEffWrapper/wrapper.py) against its
specification.  Files are modelled as lists of lines (Python iterates text
files line by line); Python dicts appear as association lists; the control
flow of `check_contigs` and `annotate_vcf` is modelled as event traces so
that warning order, raise order and cleanup behaviour are visible.
-/

namespace SnpEffWrapper

/-! ### Python string primitives

The Python string operations the wrapper uses are re-implemented here by
structural recursion over `String.data` (so that every definition evaluates
by kernel reduction).  Python strings are sequences of code points, exactly
Lean `List Char`. -/

/-- Python `str.strip()`: remove leading and trailing whitespace. -/
def pyStrip (cs : List Char) : List Char :=
  ((cs.dropWhile Char.isWhitespace).reverse.dropWhile Char.isWhitespace).reverse

/-- Python `s.endswith(suff)`. -/
def pyEndsWith (s suff : String) : Bool := suff.data.isSuffixOf s.data

/-- Python `s.lower()` (the filenames involved are ASCII, where
`Char.toLower` and Python agree). -/
def pyLower (s : String) : String := ⟨s.data.map Char.toLower⟩

/-- Python `pat in s`: `pat` occurs as a contiguous substring of `s`. -/
def containsSub (pat : List Char) : List Char → Bool
  | [] => pat.isEmpty
  | c :: cs => pat.isPrefixOf (c :: cs) || containsSub pat cs

/-- Python `pat in s` at `String` level. -/
def strContains (s pat : String) : Bool := containsSub pat.data s.data

/-- Python `line[0] == "#"` (wrapper.py lines 119 and 134).  On an empty
string the Python raises `IndexError`; iterating a text file never yields an
empty line, and the claims about these functions carry a nonempty-line
hypothesis. -/
def firstCharIsHash (line : String) : Bool :=
  match line.data with
  | [] => false
  | c :: _ => c == '#'

/-- Embeds `line.split("\t")[0].strip()` from `get_vcf_contigs` and
`get_annotation_contigs`: the first tab-delimited column of a line (the
characters before the first tab, or the whole line if it has none), with
surrounding whitespace stripped. -/
def firstColumn (line : String) : String :=
  ⟨pyStrip (line.data.takeWhile (fun c => c ≠ '\t'))⟩

/-- Python `sorted` compares strings lexicographically by code point, which
is the lexicographic order on `String.data`. -/
def pyStrLe (a b : String) : Prop := a.data ≤ b.data

instance : DecidableRel pyStrLe :=
  fun a b => inferInstanceAs (Decidable (a.data ≤ b.data))

instance : IsTotal String pyStrLe := ⟨fun a b => le_total a.data b.data⟩

instance : IsTrans String pyStrLe := ⟨fun _ _ _ hab hbc => le_trans hab hbc⟩

instance : IsAntisymm String pyStrLe :=
  ⟨fun a b hab hba => by
    cases a; cases b
    exact congrArg String.mk (le_antisymm hab hba)⟩

/-- Embeds `get_vcf_contigs` (wrapper.py lines 126-138): collect the first
column of every line whose first character is not `#` into a set and return
`sorted(set)`. -/
def get_vcf_contigs (lines : List String) : List String :=
  (((lines.filter (fun line => !(firstCharIsHash line))).map firstColumn).dedup).insertionSort
    pyStrLe

/-- Embeds `get_annotation_contigs` (wrapper.py lines 109-123); its body is
identical to that of `get_vcf_contigs`. -/
def get_annotation_contigs (lines : List String) : List String :=
  (((lines.filter (fun line => !(firstCharIsHash line))).map firstColumn).dedup).insertionSort
    pyStrLe

/-- The fatal conditions `check_contigs` can raise (wrapper.py lines 197-209). -/
inductive ContigError
  | missingCodonTable
  | noCommonContigs
  | unknownCodingTable
deriving DecidableEq, Repr

/-- One observable step of `check_contigs`: a `logger.warn` call or a raise. -/
inductive CheckEvent
  | warnMissingCodingTable (contig : String)
  | warnMissingContig (contig : String)
  | warnUnknownEncoding (encoding : String)
  | raiseError (e : ContigError)
deriving DecidableEq, Repr

def isWarnEvent : CheckEvent → Bool
  | .raiseError _ => false
  | _ => true

/-- The `known_encodings` list of `check_contigs` (wrapper.py lines 164-190). -/
def known_encodings : List String :=
  ["Alternative_Flatworm_Mitochondrial",
   "Alternative_Yeast_Nuclear",
   "Ascidian_Mitochondrial",
   "Bacterial_and_Plant_Plastid",
   "Blepharisma_Macronuclear",
   "Chlorophycean_Mitochondrial",
   "Ciliate_Nuclear",
   "Coelenterate",
   "Dasycladacean_Nuclear",
   "Echinoderm_Mitochondrial",
   "Euplotid_Nuclear",
   "Flatworm_Mitochondrial",
   "Hexamita_Nuclear",
   "Invertebrate_Mitochondrial",
   "Mitochondrial",
   "Mold_Mitochondrial",
   "Mycoplasma",
   "Protozoan_Mitochondrial",
   "Scenedesmus_obliquus_Mitochondrial",
   "Spiroplasma",
   "Standard",
   "Thraustochytrium_Mitochondrial",
   "Trematode_Mitochondrial",
   "Vertebrate_Mitochondrial",
   "Yeast_Mitochondrial"]

/-- `missing_coding_tables` (wrapper.py lines 150-154): empty when the table
has a `"default"` key, otherwise the VCF contigs that are not keys. -/
def missingCodingTables (vcf_contigs : List String)
    (coding_table : List (String × String)) : List String :=
  if (coding_table.map Prod.fst).contains "default" then []
  else vcf_contigs.filter (fun table => !((coding_table.map Prod.fst).contains table))

/-- `missing_contigs` (wrapper.py line 159): the VCF contigs absent from the
annotation contigs. -/
def missingContigs (vcf_contigs annotation_contigs : List String) : List String :=
  vcf_contigs.filter (fun contig => !(annotation_contigs.contains contig))

/-- `unknown_encodings` (wrapper.py lines 191-193): coding-table values not in
`known_encodings`. -/
def unknownEncodings (coding_table : List (String × String)) : List String :=
  (coding_table.map Prod.snd).filter (fun enc => !(known_encodings.contains enc))

/-- Embeds `check_contigs` (wrapper.py lines 141-209) as its trace of warnings
and raises, in statement order: the three warning loops run first, then the
three raise conditions are tested in order and the first applicable one
raises (ending the trace). -/
def check_contigs (vcf_contigs annotation_contigs : List String)
    (coding_table : List (String × String)) : List CheckEvent :=
  let mct := missingCodingTables vcf_contigs coding_table
  let mc := missingContigs vcf_contigs annotation_contigs
  let ue := unknownEncodings coding_table
  (mct.map CheckEvent.warnMissingCodingTable)
    ++ (mc.map CheckEvent.warnMissingContig)
    ++ (ue.map CheckEvent.warnUnknownEncoding)
    ++ (if 0 < mct.length then [CheckEvent.raiseError ContigError.missingCodonTable]
        else if mc = vcf_contigs then [CheckEvent.raiseError ContigError.noCommonContigs]
        else if 0 < ue.length then [CheckEvent.raiseError ContigError.unknownCodingTable]
        else [])

/-- The exception propagated out of a `check_contigs` trace, if any. -/
def check_raised (events : List CheckEvent) : Option ContigError :=
  events.findSome? (fun e => match e with
    | CheckEvent.raiseError err => some err
    | _ => none)

lemma check_raised_append_warns (ws rest : List CheckEvent)
    (hw : ∀ e ∈ ws, isWarnEvent e = true) :
    check_raised (ws ++ rest) = check_raised rest := by
  induction ws with
  | nil => rfl
  | cons e ws ih =>
    have he := hw e (List.mem_cons_self _ _)
    have hrest : ∀ x ∈ ws, isWarnEvent x = true := fun x hx => hw x (List.mem_cons_of_mem _ hx)
    cases e with
    | raiseError err => simp [isWarnEvent] at he
    | warnMissingCodingTable c =>
      simpa [check_raised, List.findSome?] using ih hrest
    | warnMissingContig c =>
      simpa [check_raised, List.findSome?] using ih hrest
    | warnUnknownEncoding c =>
      simpa [check_raised, List.findSome?] using ih hrest

lemma check_raised_check_contigs (v a : List String) (ct : List (String × String)) :
    check_raised (check_contigs v a ct) =
      (if 0 < (missingCodingTables v ct).length then some ContigError.missingCodonTable
       else if missingContigs v a = v then some ContigError.noCommonContigs
       else if 0 < (unknownEncodings ct).length then some ContigError.unknownCodingTable
       else none) := by
  unfold check_contigs
  rw [List.append_assoc, List.append_assoc, ← List.append_assoc, ← List.append_assoc]
  rw [check_raised_append_warns]
  · split
    · rfl
    · split
      · rfl
      · split
        · rfl
        · rfl
  · intro e he
    rcases List.mem_append.mp he with h | h
    · rcases List.mem_append.mp h with h' | h'
      · rcases List.mem_map.mp h' with ⟨c, _, rfl⟩; rfl
      · rcases List.mem_map.mp h' with ⟨c, _, rfl⟩; rfl
    · rcases List.mem_map.mp h with ⟨c, _, rfl⟩; rfl

/-! ## File-format helpers: `_is_gtf`, `get_genome_name`, database-build choices -/

/-- Embeds `_is_gtf` (wrapper.py lines 104-106):
`file_name.lower().endswith(".gtf") or file_name.endswith(".gtf.gz")`.
Note the asymmetry of the source: only the `.gtf` test lowercases. -/
def _is_gtf (file_name : String) : Bool :=
  pyEndsWith (pyLower file_name) ".gtf" || pyEndsWith file_name ".gtf.gz"

/-- The extension chosen by `create_temp_database` (wrapper.py line 214):
`"gtf" if _is_gtf(...) else "gff"`. -/
def file_ext (file_name : String) : String :=
  if _is_gtf file_name then "gtf" else "gff"

/-- The name the annotation file is copied to inside the data directory
(wrapper.py line 220): `genes.{file_ext}`. -/
def copied_genes_name (file_name : String) : String :=
  "genes." ++ file_ext file_name

/-- The format flag passed to the database-build step
(wrapper.py line 246): `"-gtf22" if _is_gtf(...) else "-gff3"`. -/
def annotation_flag (file_name : String) : String :=
  if _is_gtf file_name then "-gtf22" else "-gff3"

/-- Embeds `get_genome_name` (wrapper.py lines 224-225):
`re.sub("\x5c.gff(\x5c.gz)?$", "", gff_file.name)`.  The regex can only match
a trailing `.gff` or `.gff.gz` (the match must end at the end of the string),
and the greedy optional group prefers the longer `.gff.gz` suffix, so the
substitution is exactly this suffix stripping. -/
def get_genome_name (file_name : String) : String :=
  if pyEndsWith file_name ".gff.gz" then ⟨file_name.data.take (file_name.data.length - 7)⟩
  else if pyEndsWith file_name ".gff" then ⟨file_name.data.take (file_name.data.length - 4)⟩
  else file_name

/-! ## Output classifier: `check_annotations` (wrapper.py lines 371-398) -/

/-- The keys of `error_map` (wrapper.py lines 373-379), in source order. -/
def errorTokens : List String :=
  ["WARNING_REF_DOES_NOT_MATCH_GENOME",
   "WARNING_SEQUENCE_NOT_AVAILABLE",
   "WARNING_TRANSCRIPT_NO_START_CODON",
   "ERROR_CHROMOSOME_NOT_FOUND",
   "ERROR_OUT_OF_CHROMOSOME_RANGE"]

/-- A parsed VCF record as `check_annotations` sees it: `some parts` when
`record.INFO["ANN"]` is present (a list of strings), `none` when the lookup
raises `KeyError`. -/
abbrev VcfRecord := Option (List String)

/-- The loop state of `check_annotations`: the `annotations` string and the
`error_counter` (as a tally function; `Counter.update` adds counts per key). -/
structure ScanState where
  anns : String
  tally : String → Nat

/-- One iteration of the record loop (wrapper.py lines 387-392): a record with
an `ANN` field only refreshes `annotations` (joined with commas); a record
without one scans the current `annotations` and adds 1 for every known token
occurring in it. -/
def scanRecord (st : ScanState) (record : VcfRecord) : ScanState :=
  match record with
  | some parts => { st with anns := String.intercalate "," parts }
  | none =>
    { st with tally := fun tok =>
        st.tally tok + (if tok ∈ errorTokens ∧ strContains st.anns tok then 1 else 0) }

/-- The state after `check_annotations` has scanned all records, starting from
`annotations = ""` and an empty counter. -/
def scanRecords (records : List VcfRecord) : ScanState :=
  records.foldl scanRecord { anns := "", tally := fun _ => 0 }

/-- The final tally of one token. -/
def checkTally (records : List VcfRecord) (tok : String) : Nat :=
  (scanRecords records).tally tok

/-- The `annotations` string left after scanning `records`. -/
def lastAnns (records : List VcfRecord) : String := (scanRecords records).anns

/-- The warnings emitted after the loop (wrapper.py lines 393-394): one per
token with a nonzero tally.  (`Counter.items` order is abstracted to the
token-list order; the claims only count warnings per token.) -/
def emittedWarnings (records : List VcfRecord) : List String :=
  errorTokens.filter (fun tok => 0 < checkTally records tok)

lemma scanRecords_append (records : List VcfRecord) (r : VcfRecord) :
    scanRecords (records ++ [r]) = scanRecord (scanRecords records) r := by
  simp [scanRecords, List.foldl_append]

/-! ## Orchestrator: `annotate_vcf` (wrapper.py lines 434-459) -/

/-- The fatal conditions `annotate_vcf` can let propagate. -/
inductive RunError
  | missingCodonTable
  | noCommonContigs
  | unknownCodingTable
  | buildDatabase
  | annotationFailed
deriving DecidableEq, Repr

def liftContigError : ContigError → RunError
  | ContigError.missingCodonTable => RunError.missingCodonTable
  | ContigError.noCommonContigs => RunError.noCommonContigs
  | ContigError.unknownCodingTable => RunError.unknownCodingTable

/-- The externally visible steps of `annotate_vcf`, in source order. -/
inductive RunEvent
  | createTempDatabase
  | createConfigFile
  | snpeffBuildDatabase
  | snpeffAnnotate
  | checkAnnotatedVcf
  | moveAnnotatedVcf
  | moveSummaryCsv
  | keepTempDatabase
  | deleteTempDatabase
deriving DecidableEq, Repr

/-- The inputs of a run: the two files (as line lists), the coding table, the
exit status of the two external processes, and the retention flag. -/
structure RunArgs where
  vcf_lines : List String
  annotation_lines : List String
  coding_table : List (String × String)
  build_fails : Bool
  annotate_fails : Bool
  keep : Bool

/-- Embeds the control flow of `annotate_vcf` (wrapper.py lines 434-459) as an
event trace plus outcome.  There is no try/finally in the source: an exception
from `check_contigs` or `run_snpeff` propagates immediately, ending the trace;
`delete_temp_database` (line 459) is only reached after every prior step
succeeded and only when `args.keep` is false. -/
def annotate_vcf (args : RunArgs) : List RunEvent × Option RunError :=
  let vcf_contigs := get_vcf_contigs args.vcf_lines
  let annotation_contigs := get_annotation_contigs args.annotation_lines
  match check_raised (check_contigs vcf_contigs annotation_contigs args.coding_table) with
  | some e => ([], some (liftContigError e))
  | none =>
    if args.build_fails then
      ([RunEvent.createTempDatabase, RunEvent.createConfigFile, RunEvent.snpeffBuildDatabase],
       some RunError.buildDatabase)
    else if args.annotate_fails then
      ([RunEvent.createTempDatabase, RunEvent.createConfigFile, RunEvent.snpeffBuildDatabase,
        RunEvent.snpeffAnnotate],
       some RunError.annotationFailed)
    else
      ([RunEvent.createTempDatabase, RunEvent.createConfigFile, RunEvent.snpeffBuildDatabase,
        RunEvent.snpeffAnnotate, RunEvent.checkAnnotatedVcf, RunEvent.moveAnnotatedVcf,
        RunEvent.moveSummaryCsv]
        ++ (if args.keep then [RunEvent.keepTempDatabase] else [RunEvent.deleteTempDatabase]),
       none)

/-! ## Helper lemmas about the `check_contigs` trace -/

lemma check_contigs_decomp (v a : List String) (ct : List (String × String)) :
    check_contigs v a ct =
      ((missingCodingTables v ct).map CheckEvent.warnMissingCodingTable
        ++ (missingContigs v a).map CheckEvent.warnMissingContig
        ++ (unknownEncodings ct).map CheckEvent.warnUnknownEncoding)
      ++ (if 0 < (missingCodingTables v ct).length then
            [CheckEvent.raiseError ContigError.missingCodonTable]
          else if missingContigs v a = v then
            [CheckEvent.raiseError ContigError.noCommonContigs]
          else if 0 < (unknownEncodings ct).length then
            [CheckEvent.raiseError ContigError.unknownCodingTable]
          else []) := by
  simp [check_contigs, List.append_assoc]

lemma mem_raise_part (e : CheckEvent) (v : List String) (mct mc ue : List String)
    (he : e ∈ (if 0 < mct.length then [CheckEvent.raiseError ContigError.missingCodonTable]
        else if mc = v then [CheckEvent.raiseError ContigError.noCommonContigs]
        else if 0 < ue.length then [CheckEvent.raiseError ContigError.unknownCodingTable]
        else [])) :
    ∃ err, e = CheckEvent.raiseError err := by
  split at he
  · exact ⟨_, List.mem_singleton.mp he⟩
  · split at he
    · exact ⟨_, List.mem_singleton.mp he⟩
    · split at he
      · exact ⟨_, List.mem_singleton.mp he⟩
      · simp at he

lemma warnMissingCodingTable_mem_iff (v a : List String) (ct : List (String × String))
    (t : String) :
    CheckEvent.warnMissingCodingTable t ∈ check_contigs v a ct ↔
      t ∈ missingCodingTables v ct := by
  rw [check_contigs_decomp]
  constructor
  · intro h
    rcases List.mem_append.mp h with h | h
    · rcases List.mem_append.mp h with h | h
      · rcases List.mem_append.mp h with h | h
        · rcases List.mem_map.mp h with ⟨x, hx, hxe⟩
          cases hxe; exact hx
        · rcases List.mem_map.mp h with ⟨x, _, hxe⟩; cases hxe
      · rcases List.mem_map.mp h with ⟨x, _, hxe⟩; cases hxe
    · rcases mem_raise_part _ _ _ _ _ h with ⟨err, herr⟩; cases herr
  · intro h
    exact List.mem_append.mpr (Or.inl (List.mem_append.mpr (Or.inl
      (List.mem_append.mpr (Or.inl (List.mem_map.mpr ⟨t, h, rfl⟩))))))

lemma warnMissingContig_mem_iff (v a : List String) (ct : List (String × String))
    (c : String) :
    CheckEvent.warnMissingContig c ∈ check_contigs v a ct ↔ c ∈ missingContigs v a := by
  rw [check_contigs_decomp]
  constructor
  · intro h
    rcases List.mem_append.mp h with h | h
    · rcases List.mem_append.mp h with h | h
      · rcases List.mem_append.mp h with h | h
        · rcases List.mem_map.mp h with ⟨x, _, hxe⟩; cases hxe
        · rcases List.mem_map.mp h with ⟨x, hx, hxe⟩
          cases hxe; exact hx
      · rcases List.mem_map.mp h with ⟨x, _, hxe⟩; cases hxe
    · rcases mem_raise_part _ _ _ _ _ h with ⟨err, herr⟩; cases herr
  · intro h
    exact List.mem_append.mpr (Or.inl (List.mem_append.mpr (Or.inl
      (List.mem_append.mpr (Or.inr (List.mem_map.mpr ⟨c, h, rfl⟩))))))

lemma warnUnknownEncoding_mem_iff (v a : List String) (ct : List (String × String))
    (enc : String) :
    CheckEvent.warnUnknownEncoding enc ∈ check_contigs v a ct ↔
      enc ∈ unknownEncodings ct := by
  rw [check_contigs_decomp]
  constructor
  · intro h
    rcases List.mem_append.mp h with h | h
    · rcases List.mem_append.mp h with h | h
      · rcases List.mem_append.mp h with h | h
        · rcases List.mem_map.mp h with ⟨x, _, hxe⟩; cases hxe
        · rcases List.mem_map.mp h with ⟨x, _, hxe⟩; cases hxe
      · rcases List.mem_map.mp h with ⟨x, hx, hxe⟩
        cases hxe; exact hx
    · rcases mem_raise_part _ _ _ _ _ h with ⟨err, herr⟩; cases herr
  · intro h
    exact List.mem_append.mpr (Or.inl (List.mem_append.mpr (Or.inr
      (List.mem_map.mpr ⟨enc, h, rfl⟩))))

lemma filter_warn_append (ws rs : List CheckEvent)
    (hw : ∀ e ∈ ws, isWarnEvent e = true) (hr : ∀ e ∈ rs, isWarnEvent e = false) :
    (ws ++ rs).filter isWarnEvent ++ (ws ++ rs).filter (fun e => !(isWarnEvent e))
      = ws ++ rs := by
  have h1 : rs.filter isWarnEvent = [] :=
    List.filter_eq_nil_iff.mpr (fun e he => by simp [hr e he])
  have h2 : ws.filter (fun e => !(isWarnEvent e)) = [] :=
    List.filter_eq_nil_iff.mpr (fun e he => by simp [hw e he])
  have h3 : rs.filter (fun e => !(isWarnEvent e)) = rs :=
    List.filter_eq_self.mpr (fun e he => by simp [hr e he])
  rw [List.filter_append, List.filter_append, List.filter_eq_self.mpr hw,
    h1, h2, h3, List.append_nil, List.nil_append]

lemma check_contigs_filter_stable (v a : List String) (ct : List (String × String)) :
    (check_contigs v a ct).filter isWarnEvent
      ++ (check_contigs v a ct).filter (fun e => !(isWarnEvent e))
      = check_contigs v a ct := by
  rw [check_contigs_decomp]
  apply filter_warn_append
  · intro e he
    rcases List.mem_append.mp he with h | h
    · rcases List.mem_append.mp h with h | h
      · rcases List.mem_map.mp h with ⟨x, _, hxe⟩; cases hxe; rfl
      · rcases List.mem_map.mp h with ⟨x, _, hxe⟩; cases hxe; rfl
    · rcases List.mem_map.mp h with ⟨x, _, hxe⟩; cases hxe; rfl
  · intro e he
    rcases mem_raise_part _ v _ _ _ he with ⟨err, herr⟩
    cases herr; rfl

/-! ## Claim theorems for the consistency validator -/

/-- C3: the annotation-coverage check raises the no-common-contigs error iff
every VCF contig is absent from the annotation contigs (given that the
codon-table check passed); when the overlap is partial it emits one warning
per missing contig and does not raise: for VCF contigs chr1, chr2 against
annotation contigs chr2, chr3 the whole trace is exactly one warning (for
chr1) and no raise. -/
theorem claim_C3 (v a : List String) (ct : List (String × String))
    (h : missingCodingTables v ct = []) :
    (check_raised (check_contigs v a ct) = some ContigError.noCommonContigs ↔
      ∀ c ∈ v, c ∉ a)
    ∧ (∀ c ∈ missingContigs v a, CheckEvent.warnMissingContig c ∈ check_contigs v a ct)
    ∧ check_contigs ["chr1", "chr2"] ["chr2", "chr3"] [("default", "Standard")]
        = [CheckEvent.warnMissingContig "chr1"] := by
  refine ⟨?_, ?_, by decide⟩
  · rw [check_raised_check_contigs, h]
    simp only [List.length_nil, lt_irrefl, if_false]
    constructor
    · intro hr
      by_cases hmc : missingContigs v a = v
      · intro c hc
        have : c ∈ missingContigs v a := by rw [hmc]; exact hc
        have := List.of_mem_filter this
        simpa using this
      · rw [if_neg hmc] at hr
        split at hr <;> simp at hr
    · intro hall
      have hmc : missingContigs v a = v := by
        apply List.filter_eq_self.mpr
        intro c hc
        simpa using hall c hc
      rw [if_pos hmc]
  · intro c hc
    exact (warnMissingContig_mem_iff v a ct c).mpr hc

/-- Witness for C3 at VCF contigs chr1, chr2; annotation contigs chr2, chr3;
coding table with only a default entry. -/
theorem claim_C3_witness :
    missingCodingTables ["chr1", "chr2"] [("default", "Standard")] = []
    ∧ ((check_raised (check_contigs ["chr1", "chr2"] ["chr2", "chr3"]
          [("default", "Standard")]) = some ContigError.noCommonContigs ↔
        ∀ c ∈ ["chr1", "chr2"], c ∉ ["chr2", "chr3"])
      ∧ (∀ c ∈ missingContigs ["chr1", "chr2"] ["chr2", "chr3"],
          CheckEvent.warnMissingContig c ∈
            check_contigs ["chr1", "chr2"] ["chr2", "chr3"] [("default", "Standard")])
      ∧ check_contigs ["chr1", "chr2"] ["chr2", "chr3"] [("default", "Standard")]
          = [CheckEvent.warnMissingContig "chr1"]) :=
  ⟨by decide, claim_C3 ["chr1", "chr2"] ["chr2", "chr3"] [("default", "Standard")] (by decide)⟩

/-- C4: all three checks execute and every warning is in the trace before any
raise (the trace is its warnings followed by its raises); the raise, if any,
is decided by the first applicable condition in check order (missing codon
table, then no common contigs, then unknown coding table); and a value such
as NotARealTable outside the recognized list forces the unknown-coding-table
error once checks 1 and 2 pass. -/
theorem claim_C4 (v a : List String) (ct : List (String × String)) :
    ((check_contigs v a ct).filter isWarnEvent
      ++ (check_contigs v a ct).filter (fun e => !(isWarnEvent e))
      = check_contigs v a ct)
    ∧ (∀ t ∈ missingCodingTables v ct,
        CheckEvent.warnMissingCodingTable t ∈ check_contigs v a ct)
    ∧ (∀ c ∈ missingContigs v a, CheckEvent.warnMissingContig c ∈ check_contigs v a ct)
    ∧ (∀ enc ∈ unknownEncodings ct,
        CheckEvent.warnUnknownEncoding enc ∈ check_contigs v a ct)
    ∧ (check_raised (check_contigs v a ct) =
        (if 0 < (missingCodingTables v ct).length then some ContigError.missingCodonTable
         else if missingContigs v a = v then some ContigError.noCommonContigs
         else if 0 < (unknownEncodings ct).length then some ContigError.unknownCodingTable
         else none))
    ∧ (missingCodingTables v ct = [] → missingContigs v a ≠ v →
        "NotARealTable" ∈ ct.map Prod.snd →
        check_raised (check_contigs v a ct) = some ContigError.unknownCodingTable) := by
  refine ⟨check_contigs_filter_stable v a ct,
    fun t ht => (warnMissingCodingTable_mem_iff v a ct t).mpr ht,
    fun c hc => (warnMissingContig_mem_iff v a ct c).mpr hc,
    fun enc henc => (warnUnknownEncoding_mem_iff v a ct enc).mpr henc,
    check_raised_check_contigs v a ct, ?_⟩
  intro h1 h2 h3
  rw [check_raised_check_contigs, h1]
  simp only [List.length_nil, lt_irrefl, if_false, if_neg h2]
  have hmem : "NotARealTable" ∈ unknownEncodings ct := by
    apply List.mem_filter.mpr
    exact ⟨h3, by decide⟩
  rw [if_pos (List.length_pos.mpr (List.ne_nil_of_mem hmem))]

/-- Witness for C4 with VCF contig chr1, annotation contig chr1, and the
coding table mapping chr1 to NotARealTable: checks 1 and 2 pass and the
unknown-coding-table error is the one raised. -/
theorem claim_C4_witness :
    missingCodingTables ["chr1"] [("chr1", "NotARealTable")] = []
    ∧ missingContigs ["chr1"] ["chr1"] ≠ ["chr1"]
    ∧ "NotARealTable" ∈ [("chr1", "NotARealTable")].map Prod.snd
    ∧ check_raised (check_contigs ["chr1"] ["chr1"] [("chr1", "NotARealTable")])
        = some ContigError.unknownCodingTable :=
  ⟨by decide, by decide, by decide,
    (claim_C4 ["chr1"] ["chr1"] [("chr1", "NotARealTable")]).2.2.2.2.2
      (by decide) (by decide) (by decide)⟩

/-- C6: with a default (wildcard) key in the coding table, the
missing-codon-table list is empty, no missing-codon-table warning appears in
the trace, and the missing-codon-table error is never raised. -/
theorem claim_C6 (v a : List String) (ct : List (String × String))
    (h : (ct.map Prod.fst).contains "default" = true) :
    missingCodingTables v ct = []
    ∧ (∀ t, CheckEvent.warnMissingCodingTable t ∉ check_contigs v a ct)
    ∧ check_raised (check_contigs v a ct) ≠ some ContigError.missingCodonTable := by
  have hmct : missingCodingTables v ct = [] := by
    simp only [missingCodingTables, h, if_true]
  refine ⟨hmct, ?_, ?_⟩
  · intro t ht
    have := (warnMissingCodingTable_mem_iff v a ct t).mp ht
    rw [hmct] at this
    simp at this
  · rw [check_raised_check_contigs, hmct]
    simp only [List.length_nil, lt_irrefl, if_false]
    split
    · simp
    · split
      · simp
      · simp

/-- Witness for C6 at VCF contigs chr1, chr2, an empty annotation contig set,
and a coding table with only a default entry. -/
theorem claim_C6_witness :
    (([("default", "Standard")].map Prod.fst).contains "default" = true)
    ∧ (missingCodingTables ["chr1", "chr2"] [("default", "Standard")] = []
      ∧ (∀ t, CheckEvent.warnMissingCodingTable t ∉
          check_contigs ["chr1", "chr2"] ["chr9"] [("default", "Standard")])
      ∧ check_raised (check_contigs ["chr1", "chr2"] ["chr9"] [("default", "Standard")])
          ≠ some ContigError.missingCodonTable) :=
  ⟨by decide, claim_C6 ["chr1", "chr2"] ["chr9"] [("default", "Standard")] (by decide)⟩

/-- C10: when the variant file has no non-comment lines, its contig set is
empty and `check_contigs` raises the no-common-contigs error regardless of
annotation contigs and coding table (the empty missing-contigs list equals the
empty VCF contig list). -/
theorem claim_C10 (vcf_lines : List String) (a : List String)
    (ct : List (String × String))
    (h : ∀ l ∈ vcf_lines, firstCharIsHash l = true) :
    get_vcf_contigs vcf_lines = []
    ∧ check_raised (check_contigs (get_vcf_contigs vcf_lines) a ct)
        = some ContigError.noCommonContigs := by
  have hnil : get_vcf_contigs vcf_lines = [] := by
    unfold get_vcf_contigs
    have : vcf_lines.filter (fun line => !(firstCharIsHash line)) = [] :=
      List.filter_eq_nil_iff.mpr (fun l hl => by simp [h l hl])
    rw [this]
    rfl
  refine ⟨hnil, ?_⟩
  rw [hnil, check_raised_check_contigs]
  have h1 : missingCodingTables [] ct = [] := by
    unfold missingCodingTables
    split <;> rfl
  have h2 : missingContigs [] a = [] := rfl
  rw [h1, h2]
  simp

/-- Witness for C10 at a variant file of two comment lines, one annotation
contig, and a wildcard coding table. -/
theorem claim_C10_witness :
    (∀ l ∈ ["#CHROM", "#info"], firstCharIsHash l = true)
    ∧ (get_vcf_contigs ["#CHROM", "#info"] = []
      ∧ check_raised (check_contigs (get_vcf_contigs ["#CHROM", "#info"]) ["chr9"]
          [("default", "Standard")]) = some ContigError.noCommonContigs) :=
  ⟨by decide, claim_C10 ["#CHROM", "#info"] ["chr9"] [("default", "Standard")] (by decide)⟩

/-! ## Claim theorems about file-format classification and the genome name -/

/-- C7 counterexample: the filename a.GTF ends in neither .gtf nor .gtf.gz
(case-sensitively), so per the claim it should be classified GFF; the code
classifies it GTF (because `_is_gtf` lowercases before the `.gtf` test) and
accordingly picks the -gtf22 flag and the genes.gtf copy name. -/
theorem claim_C7_counterexample :
    pyEndsWith "a.GTF" ".gtf" = false
    ∧ pyEndsWith "a.GTF" ".gtf.gz" = false
    ∧ _is_gtf "a.GTF" = true
    ∧ annotation_flag "a.GTF" = "-gtf22"
    ∧ copied_genes_name "a.GTF" = "genes.gtf" := by decide

/-- C7 amended: a file is classified GTF exactly when its lowercased name
ends in .gtf or its name (case-sensitively) ends in .gtf.gz; the build-flag
choice and the copied-filename choice are both decided by `_is_gtf`, so the
two decisions always agree. -/
theorem claim_C7 (file_name : String) :
    (_is_gtf file_name = true ↔
      (pyEndsWith (pyLower file_name) ".gtf" = true ∨ pyEndsWith file_name ".gtf.gz" = true))
    ∧ (annotation_flag file_name = "-gtf22" ↔ copied_genes_name file_name = "genes.gtf")
    ∧ (annotation_flag file_name = "-gff3" ↔ copied_genes_name file_name = "genes.gff")
    ∧ (annotation_flag file_name = "-gtf22" ↔ _is_gtf file_name = true)
    ∧ (copied_genes_name file_name = "genes.gtf" ↔ _is_gtf file_name = true) := by
  have hcase : ∀ s : String,
      (annotation_flag s = "-gtf22" ↔ _is_gtf s = true)
      ∧ (copied_genes_name s = "genes.gtf" ↔ _is_gtf s = true)
      ∧ (annotation_flag s = "-gff3" ↔ _is_gtf s = false)
      ∧ (copied_genes_name s = "genes.gff" ↔ _is_gtf s = false) := by
    intro s
    unfold annotation_flag copied_genes_name file_ext
    cases h : _is_gtf s <;> simp only [h, if_true, if_false, Bool.false_eq_true] <;>
      refine ⟨?_, ?_, ?_, ?_⟩ <;> simp
  refine ⟨by simp [_is_gtf], ?_, ?_, (hcase file_name).1, (hcase file_name).2.1⟩
  · rw [(hcase file_name).1, (hcase file_name).2.1]
  · rw [(hcase file_name).2.2.1, (hcase file_name).2.2.2]

lemma take_append_of_isSuffixOf (cs suff : List Char) (h : suff.isSuffixOf cs = true) :
    cs.take (cs.length - suff.length) ++ suff = cs := by
  rcases List.isSuffixOf_iff_suffix.mp h with ⟨t, rfl⟩
  rw [List.length_append, Nat.add_sub_cancel, List.take_left]

/-- C8: the genome name is the filename with a trailing .gff.gz, else a
trailing .gff, removed (appending the suffix back recovers the filename), and
is the filename unchanged when neither suffix is present; in particular .gtf
and .gtf.gz are not stripped. -/
theorem claim_C8 (file_name : String) :
    (pyEndsWith file_name ".gff.gz" = true →
      (get_genome_name file_name).data ++ ".gff.gz".data = file_name.data)
    ∧ (pyEndsWith file_name ".gff.gz" = false → pyEndsWith file_name ".gff" = true →
      (get_genome_name file_name).data ++ ".gff".data = file_name.data)
    ∧ (pyEndsWith file_name ".gff.gz" = false → pyEndsWith file_name ".gff" = false →
      get_genome_name file_name = file_name)
    ∧ get_genome_name "genes.gtf" = "genes.gtf"
    ∧ get_genome_name "genes.gtf.gz" = "genes.gtf.gz"
    ∧ get_genome_name "genes.gff" = "genes"
    ∧ get_genome_name "genes.gff.gz" = "genes" := by
  refine ⟨?_, ?_, ?_, by decide, by decide, by decide, by decide⟩
  · intro h
    unfold get_genome_name
    rw [if_pos h]
    exact take_append_of_isSuffixOf _ _ h
  · intro h1 h2
    unfold get_genome_name
    rw [if_neg (by simp [h1]), if_pos h2]
    exact take_append_of_isSuffixOf _ _ h2
  · intro h1 h2
    unfold get_genome_name
    rw [if_neg (by simp [h1]), if_neg (by simp [h2])]

/-- Witness for C8 at the filenames my.gff.gz and my.gff. -/
theorem claim_C8_witness :
    (pyEndsWith "my.gff.gz" ".gff.gz" = true
      ∧ (get_genome_name "my.gff.gz").data ++ ".gff.gz".data = "my.gff.gz".data)
    ∧ (pyEndsWith "my.gff" ".gff.gz" = false ∧ pyEndsWith "my.gff" ".gff" = true
      ∧ (get_genome_name "my.gff").data ++ ".gff".data = "my.gff".data) :=
  ⟨⟨by decide, (claim_C8 "my.gff.gz").1 (by decide)⟩,
   ⟨by decide, by decide, (claim_C8 "my.gff").2.1 (by decide) (by decide)⟩⟩

/-! ## Claim theorems about the run as a whole -/

/-- C1 counterexample: a run whose validation succeeds, whose scratch
directory is created, and whose build step fails with retention off; the
claim says the scratch directory is deleted on this exit path, but the trace
contains no delete event (the exception propagates before line 459 of
wrapper.py is reached). -/
theorem claim_C1_counterexample :
    (annotate_vcf
        ⟨["chr1\t1\t.\tA\tT"], ["chr1\tx"], [("default", "Standard")], true, false, false⟩).2
      = some RunError.buildDatabase
    ∧ RunEvent.createTempDatabase ∈ (annotate_vcf
        ⟨["chr1\t1\t.\tA\tT"], ["chr1\tx"], [("default", "Standard")], true, false, false⟩).1
    ∧ RunEvent.deleteTempDatabase ∉ (annotate_vcf
        ⟨["chr1\t1\t.\tA\tT"], ["chr1\tx"], [("default", "Standard")], true, false, false⟩).1 := by
  decide

/-- C1 amended: when either external-process step fails, the exception
propagates without cleanup (the trace never contains a delete event); the
scratch directory is deleted exactly on the fully successful path with
retention not requested, and kept on the successful path with retention
requested. -/
theorem claim_C1_amended (args : RunArgs) :
    ((annotate_vcf args).2 = some RunError.buildDatabase ∨
        (annotate_vcf args).2 = some RunError.annotationFailed →
      RunEvent.deleteTempDatabase ∉ (annotate_vcf args).1)
    ∧ ((annotate_vcf args).2 = none → args.keep = false →
      RunEvent.deleteTempDatabase ∈ (annotate_vcf args).1)
    ∧ ((annotate_vcf args).2 = none → args.keep = true →
      RunEvent.deleteTempDatabase ∉ (annotate_vcf args).1) := by
  rcases hcr : check_raised (check_contigs (get_vcf_contigs args.vcf_lines)
      (get_annotation_contigs args.annotation_lines) args.coding_table) with _ | e <;>
    cases hb : args.build_fails <;> cases ha : args.annotate_fails <;> cases hk : args.keep <;>
      simp [annotate_vcf, hcr, hb, ha, hk]

/-- Witness for C1 amended: a failing build run has no delete event; the same
run with both process steps succeeding and retention off has one. -/
theorem claim_C1_amended_witness :
    ((annotate_vcf
        ⟨["chr1\t9"], ["chr1\ty"], [("default", "Standard")], true, false, false⟩).2
      = some RunError.buildDatabase
    ∧ RunEvent.deleteTempDatabase ∉ (annotate_vcf
        ⟨["chr1\t9"], ["chr1\ty"], [("default", "Standard")], true, false, false⟩).1)
    ∧ ((annotate_vcf
        ⟨["chr1\t9"], ["chr1\ty"], [("default", "Standard")], false, false, false⟩).2 = none
    ∧ RunEvent.deleteTempDatabase ∈ (annotate_vcf
        ⟨["chr1\t9"], ["chr1\ty"], [("default", "Standard")], false, false, false⟩).1) :=
  ⟨⟨by decide,
    (claim_C1_amended ⟨["chr1\t9"], ["chr1\ty"], [("default", "Standard")], true, false, false⟩).1
      (Or.inl (by decide))⟩,
   ⟨by decide,
    (claim_C1_amended ⟨["chr1\t9"], ["chr1\ty"], [("default", "Standard")], false, false, false⟩).2.1
      (by decide) rfl⟩⟩

/-! ## Claim theorems about the contig extractor -/

lemma mem_get_vcf_contigs (ls : List String) (s : String) :
    s ∈ get_vcf_contigs ls ↔
      ∃ l ∈ ls, firstCharIsHash l = false ∧ firstColumn l = s := by
  unfold get_vcf_contigs
  rw [(List.perm_insertionSort pyStrLe _).mem_iff, List.mem_dedup, List.mem_map]
  constructor
  · rintro ⟨l, hl, rfl⟩
    have hf := List.mem_filter.mp hl
    exact ⟨l, hf.1, by simpa using hf.2, rfl⟩
  · rintro ⟨l, hl, hhash, rfl⟩
    exact ⟨l, List.mem_filter.mpr ⟨hl, by simp [hhash]⟩, rfl⟩

/-- C5: for every input whose lines are nonempty (iterating a text file
yields no empty line; on one the Python `line[0]` would raise), the contig
extractor result is sorted in code-point order and duplicate-free, its
members are exactly the stripped first-column values of the non-comment
lines, the result is unchanged under reordering and repetition of lines
(inputs with equal line sets give equal results), and `get_annotation_contigs`
computes the identical function. -/
theorem claim_C5 (lines lines2 : List String)
    (_hlines : ∀ l ∈ lines, l ≠ "") (_hlines2 : ∀ l ∈ lines2, l ≠ "") :
    List.Sorted pyStrLe (get_vcf_contigs lines)
    ∧ (get_vcf_contigs lines).Nodup
    ∧ (∀ s, s ∈ get_vcf_contigs lines ↔
        ∃ l ∈ lines, firstCharIsHash l = false ∧ firstColumn l = s)
    ∧ (lines.toFinset = lines2.toFinset → get_vcf_contigs lines = get_vcf_contigs lines2)
    ∧ get_annotation_contigs lines = get_vcf_contigs lines := by
  refine ⟨List.sorted_insertionSort pyStrLe _,
    (List.perm_insertionSort pyStrLe _).nodup_iff.mpr (List.nodup_dedup _),
    mem_get_vcf_contigs lines, ?_, rfl⟩
  intro hf
  have hl12 : ∀ y : String, y ∈ lines ↔ y ∈ lines2 := fun y => by
    rw [← List.mem_toFinset, hf, List.mem_toFinset]
  apply List.eq_of_perm_of_sorted ?_ (List.sorted_insertionSort pyStrLe _)
    (List.sorted_insertionSort pyStrLe _)
  refine ((List.perm_insertionSort pyStrLe _).trans ?_).trans
    (List.perm_insertionSort pyStrLe _).symm
  apply List.perm_of_nodup_nodup_toFinset_eq (List.nodup_dedup _) (List.nodup_dedup _)
  apply Finset.ext
  intro x
  simp only [List.mem_toFinset, List.mem_dedup, List.mem_map, List.mem_filter]
  constructor
  · rintro ⟨l, ⟨hl, hp⟩, rfl⟩
    exact ⟨l, ⟨(hl12 l).mp hl, hp⟩, rfl⟩
  · rintro ⟨l, ⟨hl, hp⟩, rfl⟩
    exact ⟨l, ⟨(hl12 l).mpr hl, hp⟩, rfl⟩

/-- Witness for C5 on a small file and a reordered, repeated version of it. -/
theorem claim_C5_witness :
    List.Sorted pyStrLe (get_vcf_contigs ["chr2\t5", "#h", "chr1\t3"])
    ∧ (get_vcf_contigs ["chr2\t5", "#h", "chr1\t3"]).Nodup
    ∧ (∀ s, s ∈ get_vcf_contigs ["chr2\t5", "#h", "chr1\t3"] ↔
        ∃ l ∈ ["chr2\t5", "#h", "chr1\t3"], firstCharIsHash l = false ∧ firstColumn l = s)
    ∧ (["chr2\t5", "#h", "chr1\t3"].toFinset
          = ["chr1\t3", "chr2\t5", "#h", "chr2\t5"].toFinset →
        get_vcf_contigs ["chr2\t5", "#h", "chr1\t3"]
          = get_vcf_contigs ["chr1\t3", "chr2\t5", "#h", "chr2\t5"])
    ∧ get_annotation_contigs ["chr2\t5", "#h", "chr1\t3"]
        = get_vcf_contigs ["chr2\t5", "#h", "chr1\t3"] :=
  claim_C5 ["chr2\t5", "#h", "chr1\t3"] ["chr1\t3", "chr2\t5", "#h", "chr2\t5"]
    (by decide) (by decide)

/-! ## Claim theorems about the output classifier -/

lemma lastAnns_append_some (records : List VcfRecord) (parts : List String) :
    lastAnns (records ++ [some parts]) = String.intercalate "," parts := by
  simp [lastAnns, scanRecords_append, scanRecord]

lemma lastAnns_append_none (records : List VcfRecord) :
    lastAnns (records ++ [none]) = lastAnns records := by
  simp [lastAnns, scanRecords_append, scanRecord]

lemma checkTally_append_some (records : List VcfRecord) (parts : List String) (tok : String) :
    checkTally (records ++ [some parts]) tok = checkTally records tok := by
  simp [checkTally, scanRecords_append, scanRecord]

lemma checkTally_append_none (records : List VcfRecord) (tok : String)
    (htok : tok ∈ errorTokens) :
    checkTally (records ++ [none]) tok
      = checkTally records tok
        + (if strContains (lastAnns records) tok = true then 1 else 0) := by
  simp [checkTally, scanRecords_append, scanRecord, lastAnns, htok]

/-- C9: a record with no annotation field is scanned against the annotation
text most recently extracted from an earlier record (`lastAnns`), which is
the empty string before any record carried one; such a scan adds at most 1
per token no matter how often the token occurs in that text; and a record
that does have an annotation field contributes nothing to the tally at its
own position (it only refreshes the text). -/
theorem claim_C9 (records : List VcfRecord) (tok : String) (htok : tok ∈ errorTokens) :
    lastAnns ([] : List VcfRecord) = ""
    ∧ (∀ parts, lastAnns (records ++ [some parts]) = String.intercalate "," parts)
    ∧ lastAnns (records ++ [none]) = lastAnns records
    ∧ checkTally (records ++ [none]) tok
        = checkTally records tok
          + (if strContains (lastAnns records) tok = true then 1 else 0)
    ∧ checkTally (records ++ [none]) tok ≤ checkTally records tok + 1
    ∧ (∀ parts, checkTally (records ++ [some parts]) tok = checkTally records tok) :=
  ⟨rfl, fun parts => lastAnns_append_some records parts, lastAnns_append_none records,
    checkTally_append_none records tok htok,
    by rw [checkTally_append_none records tok htok]; split <;> omega,
    fun parts => checkTally_append_some records parts tok⟩

/-- Witness for C9: after a record whose annotation field holds the
chromosome-not-found token, an annotation-less record adds exactly the
scan increment of the remembered text. -/
theorem claim_C9_witness :
    "ERROR_CHROMOSOME_NOT_FOUND" ∈ errorTokens
    ∧ checkTally ([some ["ERROR_CHROMOSOME_NOT_FOUND"]] ++ [none]) "ERROR_CHROMOSOME_NOT_FOUND"
        = checkTally [some ["ERROR_CHROMOSOME_NOT_FOUND"]] "ERROR_CHROMOSOME_NOT_FOUND"
          + (if strContains (lastAnns [some ["ERROR_CHROMOSOME_NOT_FOUND"]])
                "ERROR_CHROMOSOME_NOT_FOUND" = true then 1 else 0) :=
  ⟨by decide,
    (claim_C9 [some ["ERROR_CHROMOSOME_NOT_FOUND"]] "ERROR_CHROMOSOME_NOT_FOUND"
      (by decide)).2.2.2.1⟩

/-- C2 counterexample: a stream whose single record carries the
chromosome-not-found token in its annotation field.  The token occurs in
exactly one record's annotation field, yet the tally is 0 (not 1) and no
warning is emitted (not exactly one): the counter only updates on records
LACKING an annotation field. -/
theorem claim_C2_counterexample :
    ([some ["ERROR_CHROMOSOME_NOT_FOUND"]] : List VcfRecord).countP
        (fun r => match r with
          | some parts =>
            strContains (String.intercalate "," parts) "ERROR_CHROMOSOME_NOT_FOUND"
          | none => false) = 1
    ∧ checkTally [some ["ERROR_CHROMOSOME_NOT_FOUND"]] "ERROR_CHROMOSOME_NOT_FOUND" = 0
    ∧ emittedWarnings [some ["ERROR_CHROMOSOME_NOT_FOUND"]] = [] := by decide

/-- C2 amended: the tally for a token counts the annotation-less records
scanned while the most recently extracted annotation text contains the token
(the records whose own annotation fields contain the token are irrelevant at
their own positions), and the warning for the token is emitted exactly once
iff that tally is positive. -/
theorem claim_C2_amended (records : List VcfRecord) (tok : String)
    (htok : tok ∈ errorTokens) :
    checkTally records tok
      = (List.range records.length).countP
          (fun i => decide (records.getD i none = none
              ∧ strContains (lastAnns (records.take i)) tok = true))
    ∧ (emittedWarnings records).count tok
        = (if 0 < checkTally records tok then 1 else 0) := by
  constructor
  · induction records using List.reverseRecOn with
    | nil => rfl
    | append_singleton l r ih =>
      rw [List.length_append, List.length_singleton, List.range_succ, List.countP_append]
      have hsmall : (List.range l.length).countP
            (fun i => decide ((l ++ [r]).getD i none = none
                ∧ strContains (lastAnns ((l ++ [r]).take i)) tok = true))
          = (List.range l.length).countP
            (fun i => decide (l.getD i none = none
                ∧ strContains (lastAnns (l.take i)) tok = true)) := by
        apply List.countP_congr
        intro i hi
        have hilt : i < l.length := List.mem_range.mp hi
        rw [List.getD_append _ _ _ _ hilt, List.take_append_of_le_length (le_of_lt hilt)]
      have hlast : List.countP
            (fun i => decide ((l ++ [r]).getD i none = none
                ∧ strContains (lastAnns ((l ++ [r]).take i)) tok = true)) [l.length]
          = (if r = none ∧ strContains (lastAnns l) tok = true then 1 else 0) := by
        rw [List.countP_cons, List.countP_nil,
          List.getD_append_right _ _ _ _ (le_refl _), Nat.sub_self, List.take_left]
        simp
      rw [hsmall, hlast, ← ih]
      cases r with
      | none =>
        rw [checkTally_append_none l tok htok]
        simp
      | some parts =>
        rw [checkTally_append_some l parts tok]
        simp
  · by_cases hpos : 0 < checkTally records tok
    · rw [if_pos hpos, emittedWarnings, List.count_filter (by simpa using hpos)]
      exact List.count_eq_one_of_mem (by decide) htok
    · rw [if_neg hpos, emittedWarnings]
      apply List.count_eq_zero.mpr
      intro hmem
      exact hpos (by simpa using (List.mem_filter.mp hmem).2)

/-- Witness for C2 amended: a token-carrying record followed by one
annotation-less record yields tally 1 and a single warning. -/
theorem claim_C2_amended_witness :
    "ERROR_CHROMOSOME_NOT_FOUND" ∈ errorTokens
    ∧ (checkTally [some ["ERROR_CHROMOSOME_NOT_FOUND"], none] "ERROR_CHROMOSOME_NOT_FOUND"
        = (List.range ([some ["ERROR_CHROMOSOME_NOT_FOUND"], none] : List VcfRecord).length).countP
            (fun i => decide (([some ["ERROR_CHROMOSOME_NOT_FOUND"], none] : List VcfRecord).getD i none = none
                ∧ strContains
                    (lastAnns (([some ["ERROR_CHROMOSOME_NOT_FOUND"], none] : List VcfRecord).take i))
                    "ERROR_CHROMOSOME_NOT_FOUND" = true))
      ∧ (emittedWarnings [some ["ERROR_CHROMOSOME_NOT_FOUND"], none]).count
          "ERROR_CHROMOSOME_NOT_FOUND"
        = (if 0 < checkTally [some ["ERROR_CHROMOSOME_NOT_FOUND"], none]
              "ERROR_CHROMOSOME_NOT_FOUND" then 1 else 0)) :=
  ⟨by decide,
    claim_C2_amended [some ["ERROR_CHROMOSOME_NOT_FOUND"], none] "ERROR_CHROMOSOME_NOT_FOUND"
      (by decide)⟩

end SnpEffWrapper
